import Mathlib

/-
Verification of the double-buffered stencil simulators of the
shader-art-litert repository.

The repository contains two live WebGPU simulators:

- a Gray-Scott reaction-diffusion simulator
  (src/unnamed/part_000, component ReactionDiffusionCanvas), and
- a wave-propagation simulator
  (src/src/components/shader-canvas/shader-canvas.component.tsx,
  component ShaderCanvas, wave variant).

Both share the same ping-pong structure: two textures, a frameIndex
counter, a compute pass stepping the stencil kernel from
textures[frameIndex % 2] into textures[1 - frameIndex % 2], a render
pass reading one of the textures, a frameIndex increment at the end of
drawFrame, and a pointer handler that writes an impulse patch into
textures[frameIndex % 2] through GPUQueue.writeTexture.

The WGSL shader arithmetic on f32 values is embedded over the rational
numbers; textures are embedded as total functions from integer texel
coordinates to channel values, so that the out-of-bounds behaviour of
textureLoad stays an arbitrary function value rather than a fixed
choice.
-/

set_option autoImplicit false

namespace ShaderArt

/-- One texel of a simulation texture. Only the first two channels carry
simulation state in either simulator: in reaction-diffusion mode `r` is
the concentration U (called A in the spec) and `g` is the concentration
V (called B); in wave mode `r` is the current height and `g` is the
previous height. The blue and alpha channels are written as the
constants 0 and 1 by both kernels and carry no state, so they are not
modelled. -/
structure Cell where
  r : ℚ
  g : ℚ
deriving DecidableEq, Repr

/-- A simulation texture, as seen through WGSL textureLoad: a total
function from signed integer texel coordinates to channel values. The
cells at coordinates inside [0,W) x [0,H) are the grid proper; the
values at out-of-bounds coordinates stand for whatever an out-of-bounds
textureLoad returns on the device (the WGSL spec leaves it
indeterminate), so theorems quantify over the whole function. -/
def Tex : Type := Int → Int → Cell

/-- WGSL clamp on rationals: clamp(e, low, high) = min(max(e, low), high). -/
def clampQ (x lo hi : ℚ) : ℚ := min (max x lo) hi

/-- Diffusion rate of U; constant DU of rdComputeShaderCode (src/unnamed/part_000 line 18). -/
def DU : ℚ := 16 / 100

/-- Diffusion rate of V; constant DV of rdComputeShaderCode (line 19). -/
def DV : ℚ := 8 / 100

/-- Feed rate; constant F of rdComputeShaderCode (line 20). -/
def F : ℚ := 55 / 1000

/-- Kill rate; constant K of rdComputeShaderCode (line 21). -/
def K : ℚ := 62 / 1000

/-- Time step; constant DT of rdComputeShaderCode (line 22). -/
def DT : ℚ := 14 / 10

/-- Damping factor; constant DAMPING of waveComputeShaderCode
(shader-canvas.component.tsx line 303). -/
def DAMPING : ℚ := 99 / 100

/-- Propagation strength; constant STRENGTH of waveComputeShaderCode (line 304). -/
def STRENGTH : ℚ := 1 / 2

/-- Canvas width of the reaction-diffusion simulator (src/unnamed/part_000 line 5). -/
def rdWIDTH : Int := 700

/-- Canvas height of the reaction-diffusion simulator (line 6). -/
def rdHEIGHT : Int := 600

/-- Canvas width of the wave simulator (shader-canvas.component.tsx line 287). -/
def waveWIDTH : Int := 700

/-- Canvas height of the wave simulator (line 288). -/
def waveHEIGHT : Int := 450

/-- WORKGROUP_SIZE = 8, shared by both simulators. -/
def WORKGROUP_SIZE : ℕ := 8

/-- Workgroup count per axis: Math.ceil(n / WORKGROUP_SIZE) as computed
in drawFrame (src/unnamed/part_000 lines 185-186). For natural n this is
(n + 7) / 8 in integer division. -/
def workgroupCount (n : ℕ) : ℕ := (n + WORKGROUP_SIZE - 1) / WORKGROUP_SIZE

/-- One invocation of the Gray-Scott compute kernel, translated from the
main function of rdComputeShaderCode (src/unnamed/part_000 lines 24-72).
Arguments: the input texture, the texture dimensions size.x and size.y,
and the invocation coordinates coords.x and coords.y. Returns none when
the kernel returns without storing (the bounds guard at line 30) and
some c when it executes textureStore(outputTexture, coords, c). -/
def rdKernel (tex : Tex) (sx sy cx cy : Int) : Option Cell :=
  if cx ≥ sx ∨ cy ≥ sy ∨ cx < 0 ∨ cy < 0 then
    none
  else
    let u_current := (tex cx cy).r
    let v_current := (tex cx cy).g
    let sum_neighbors_u :=
      (tex (cx - 1) cy).r + (tex (cx + 1) cy).r + (tex cx (cy - 1)).r + (tex cx (cy + 1)).r
    let laplacian_u := sum_neighbors_u - 4 * u_current
    let sum_neighbors_v :=
      (tex (cx - 1) cy).g + (tex (cx + 1) cy).g + (tex cx (cy - 1)).g + (tex cx (cy + 1)).g
    let laplacian_v := sum_neighbors_v - 4 * v_current
    let uvv := u_current * v_current * v_current
    let du_dt := DU * laplacian_u - uvv + F * (1 - u_current)
    let dv_dt := DV * laplacian_v + uvv - (F + K) * v_current
    let next_u := u_current + du_dt * DT
    let next_v := v_current + dv_dt * DT
    let clamped_u := clampQ next_u 0 1
    let clamped_v := clampQ next_v 0 1
    some ⟨clamped_u, clamped_v⟩

/-- One invocation of the wave compute kernel, translated from the main
function of waveComputeShaderCode (shader-canvas.component.tsx lines
306-342). Returns none when the kernel returns without storing (the
bounds guard at line 315) and some c when it stores c. -/
def waveKernel (tex : Tex) (sx sy cx cy : Int) : Option Cell :=
  if cx ≥ sx ∨ cy ≥ sy ∨ cx < 0 ∨ cy < 0 then
    none
  else
    let current_val := (tex cx cy).r
    let prev_val := (tex cx cy).g
    let sum_neighbors :=
      (tex (cx - 1) cy).r + (tex (cx + 1) cy).r + (tex cx (cy - 1)).r + (tex cx (cy + 1)).r
    let laplacian := sum_neighbors - 4 * current_val
    let new_val := 2 * current_val - prev_val + laplacian * STRENGTH
    let damped_new_val := new_val * DAMPING
    some ⟨damped_new_val, current_val⟩

/-- Spec-side laplacian, following section 4.1 of the spec:
laplacian(X) = sum of the four axis-aligned neighbors of X minus 4
times the value at the cell itself. -/
def laplacianSpec (self l r t b : ℚ) : ℚ := (l + r + t + b) - 4 * self

/-- Spec-side Gray-Scott Euler step, following section 4.1 of the spec
word for word: given the channel values a = A, b = B and the two
laplacians, produce A1 = clamp(A + (D_A lap(A) - A B^2 + F (1 - A)) dt, 0, 1)
and B1 = clamp(B + (D_B lap(B) + A B^2 - (F + K) B) dt, 0, 1). Stated
separately from rdKernel so the kernel can be proved to refine it. -/
def rdSpecStep (a b la lb : ℚ) : Cell :=
  ⟨clampQ (a + (DU * la - a * b ^ 2 + F * (1 - a)) * DT) 0 1,
   clampQ (b + (DV * lb + a * b ^ 2 - (F + K) * b) * DT) 0 1⟩

/-- Spec-side wave step, following section 4.1 of the spec: new height
A1 = damping (2 A - B + lap(A) strength), and the old height A is
stored as the new previous height B1. -/
def waveSpecStep (a b lap : ℚ) : Cell :=
  ⟨DAMPING * (2 * a - b + lap * STRENGTH), a⟩

/-- The uniform initial texture contents of the reaction-diffusion
simulator: initialData in part_000 lines 273-281 sets R (U) = 1.0 and
G (V) = 0.0 on every texel of both textures. -/
def constTex : Tex := fun _ _ => ⟨1, 0⟩

/-- The initial texture contents of the wave simulator: the code never
writes initial data into textureA or textureB, and WebGPU zero-fills
newly created textures, so every channel starts at 0. -/
def zeroTex : Tex := fun _ _ => ⟨0, 0⟩

/-- The mutable GPU state of one simulator that the claims are about:
the two ping-pong textures (gpuState.textures = [TextureA, TextureB])
and the frameIndex counter, initial value 0 (part_000 lines 137, 141,
147, 151). The pipeline handles and bind group objects are immutable
wiring and are folded into drawFrame below. -/
structure GpuState where
  tex0 : Tex
  tex1 : Tex
  frameIndex : ℕ

/-- The buffer index read as current by a tick, computed in drawFrame:
currentBufferIndex = state.frameIndex % 2 (part_000 line 173). -/
def currentBufferIndex (s : GpuState) : ℕ := s.frameIndex % 2

/-- Texture lookup by ping-pong index, mirroring state.textures[i] with
textures = [TextureA, TextureB]. -/
def texAt (s : GpuState) (i : ℕ) : Tex :=
  if i = 0 then s.tex0 else s.tex1

/-- The record of which bind groups one execution of drawFrame uses:
the compute pass reads textures[computeReadIdx] and writes
textures[computeWriteIdx] (bindGroups[0][currentBufferIndex] is wired
input = textures[cur], output = textures[1-cur], part_000 lines
329-343), and the render pass reads textures[renderReadIdx]
(bindGroups[1][currentBufferIndex] is wired to textures[cur], lines
345-353 and 211). -/
structure TickLog where
  computeReadIdx : ℕ
  computeWriteIdx : ℕ
  renderReadIdx : ℕ
deriving DecidableEq, Repr

/-- The full-grid effect of one compute pass: the dispatch covers every
texel of the write texture that any kernel invocation stores to, so the
new contents of the write texture hold the kernel output where the
kernel stores and the old contents where it does not (textureStore is
the only write). -/
def stepTexture (kernel : Tex → Int → Int → Int → Int → Option Cell)
    (src dst : Tex) (sx sy : Int) : Tex :=
  fun x y =>
    match kernel src sx sy x y with
    | some c => c
    | none => dst x y

/-- One execution of drawFrame of the reaction-diffusion simulator
(part_000 lines 161-220): compute currentBufferIndex = frameIndex % 2,
run the compute pass from textures[cur] into textures[1-cur], run the
render pass with bindGroups[1][cur] (reading textures[cur]), then
increment frameIndex. Returns the new state together with the TickLog
of the bind groups used. -/
def rdDrawFrame (s : GpuState) : GpuState × TickLog :=
  let cur := currentBufferIndex s
  let src := texAt s cur
  let dst := texAt s (1 - cur)
  let newDst := stepTexture rdKernel src dst rdWIDTH rdHEIGHT
  (if cur = 0 then
    { tex0 := s.tex0, tex1 := newDst, frameIndex := s.frameIndex + 1 }
   else
    { tex0 := newDst, tex1 := s.tex1, frameIndex := s.frameIndex + 1 },
   { computeReadIdx := cur, computeWriteIdx := 1 - cur, renderReadIdx := cur })

/-- The state transition of one tick of the reaction-diffusion simulator. -/
def rdStep (s : GpuState) : GpuState := (rdDrawFrame s).1

/-- The GPU state right after initialization of the reaction-diffusion
simulator: both textures filled with U = 1, V = 0 and frameIndex = 0
(part_000 lines 151, 273-296). -/
def rdInitGpu : GpuState := { tex0 := constTex, tex1 := constTex, frameIndex := 0 }

/-- The simulator state after n completed ticks, starting from the
initial state. -/
def rdSimAt (n : ℕ) : GpuState := rdStep^[n] rdInitGpu

/-- The GPU state right after initialization of the wave simulator:
textures zero-filled (never written from the CPU) and frameIndex = 0. -/
def waveInitGpu : GpuState := { tex0 := zeroTex, tex1 := zeroTex, frameIndex := 0 }

/-- Model of GPUQueue.writeTexture restricted to what the repository
uses: copy a pw x ph block of the constant texel value val to origin
(ox, oy) of a texW x texH texture. Per the WebGPU validation rules for
writeTexture, the copy is rejected as a whole unless the destination
region lies entirely inside the texture (a negative origin coordinate
is likewise rejected, since GPUOrigin3D coordinates are unsigned);
a rejected copy writes nothing. -/
def writeTexturePatch (tex : Tex) (texW texH ox oy pw ph : Int) (val : Cell) : Tex :=
  if 0 ≤ ox ∧ 0 ≤ oy ∧ ox + pw ≤ texW ∧ oy + ph ≤ texH then
    fun px py =>
      if ox ≤ px ∧ px < ox + pw ∧ oy ≤ py ∧ py < oy + ph then val else tex px py
  else
    tex

/-- The buffer index targeted by the reaction-diffusion pointer
handler: currentBufferIndex = state.frameIndex % 2 (part_000 line 406,
writeTexture goes to state.textures[currentBufferIndex], line 407). -/
def rdInjectTargetIdx (frameIndex : ℕ) : ℕ := frameIndex % 2

/-- The buffer index targeted by the wave pointer handler:
currentBufferIndex = state.frameIndex % 2 (shader-canvas.component.tsx
line 646, writeTexture goes to state.textures[currentBufferIndex],
line 647). -/
def waveInjectTargetIdx (frameIndex : ℕ) : ℕ := frameIndex % 2

/-- The texture-writing part of handleCanvasClick of the
reaction-diffusion simulator (part_000 lines 372-420), taking the
already-translated grid coordinate (x, y) of the click: write a 5 x 5
patch of constant texel value U = impulse_U = 0.5, V = impulse_V = 1.0
at origin (x - 2, y - 2) into textures[frameIndex % 2]. -/
def rdHandleCanvasClick (s : GpuState) (x y : Int) : GpuState :=
  let idx := rdInjectTargetIdx s.frameIndex
  if idx = 0 then
    { s with tex0 := writeTexturePatch s.tex0 rdWIDTH rdHEIGHT (x - 2) (y - 2) 5 5 ⟨1/2, 1⟩ }
  else
    { s with tex1 := writeTexturePatch s.tex1 rdWIDTH rdHEIGHT (x - 2) (y - 2) 5 5 ⟨1/2, 1⟩ }

/-- The texture-writing part of handleCanvasClick of the wave simulator
(shader-canvas.component.tsx lines 632-656): write a single texel
dropData = [1.0, 0.0, 0.0, 1.0] at origin (x, y) into
textures[frameIndex % 2]. -/
def waveHandleCanvasClick (s : GpuState) (x y : Int) : GpuState :=
  let idx := waveInjectTargetIdx s.frameIndex
  if idx = 0 then
    { s with tex0 := writeTexturePatch s.tex0 waveWIDTH waveHEIGHT x y 1 1 ⟨1, 0⟩ }
  else
    { s with tex1 := writeTexturePatch s.tex1 waveWIDTH waveHEIGHT x y 1 1 ⟨1, 0⟩ }

/-- The animation-frame loop of the reaction-diffusion simulator, seen
from the host scheduler: pending records whether a requestAnimationFrame
request is outstanding (the stored animationFrameId is always the most
recent request, so there is at most one). -/
structure LoopModel where
  gpu : GpuState
  pending : Bool

/-- The host firing one animation-frame callback: when a request is
outstanding, drawFrame runs, mutating the GPU state and re-requesting
the next frame as its last action (part_000 line 219); with no
outstanding request nothing runs. -/
def fireTick (m : LoopModel) : LoopModel :=
  if m.pending then { gpu := rdStep m.gpu, pending := true } else m

/-- The useEffect cleanup (part_000 lines 366-368):
cancelAnimationFrame on the stored id removes the outstanding request
and touches nothing else. -/
def cancelLoop (m : LoopModel) : LoopModel := { m with pending := false }

/-- The loop state right after initialization: drawFrame has been
requested once (part_000 line 357). -/
def rdInitLoop : LoopModel := { gpu := rdInitGpu, pending := true }

section Helpers

/-- Both clamp bounds of the kernels: a value clamped into [0, 1] lies
in [0, 1]. -/
theorem clampQ_unit (x : ℚ) : 0 ≤ clampQ x 0 1 ∧ clampQ x 0 1 ≤ 1 := by
  unfold clampQ
  exact ⟨le_min (le_max_right x 0) (by norm_num), min_le_right _ _⟩

/-- One drawFrame execution increments frameIndex by exactly one. -/
theorem rdStep_frameIndex (s : GpuState) : (rdStep s).frameIndex = s.frameIndex + 1 := by
  unfold rdStep rdDrawFrame
  dsimp only
  split <;> rfl

/-- After n ticks the frame counter reads n. -/
theorem rdSimAt_frameIndex (n : ℕ) : (rdSimAt n).frameIndex = n := by
  induction n with
  | zero => rfl
  | succ k ih =>
    unfold rdSimAt at ih ⊢
    rw [Function.iterate_succ_apply', rdStep_frameIndex, ih]

/-- The bind-group indices drawFrame uses, as a function of the state. -/
theorem rdDrawFrame_log (s : GpuState) :
    (rdDrawFrame s).2 =
      { computeReadIdx := currentBufferIndex s,
        computeWriteIdx := 1 - currentBufferIndex s,
        renderReadIdx := currentBufferIndex s } := rfl

/-- The compute pass writes only the complementary texture, so the
texture read as current during a tick is unchanged by that tick. -/
theorem rdStep_preserves_read_texture (s : GpuState) :
    texAt (rdStep s) (currentBufferIndex s) = texAt s (currentBufferIndex s) := by
  unfold rdStep rdDrawFrame currentBufferIndex texAt
  rcases Nat.mod_two_eq_zero_or_one s.frameIndex with h | h <;> simp [h]

/-- The pointer handler does not touch the frame counter
(reaction-diffusion variant). -/
theorem rdHandleCanvasClick_frameIndex (s : GpuState) (x y : Int) :
    (rdHandleCanvasClick s x y).frameIndex = s.frameIndex := by
  unfold rdHandleCanvasClick
  dsimp only
  split <;> rfl

/-- The pointer handler does not touch the frame counter (wave variant). -/
theorem waveHandleCanvasClick_frameIndex (s : GpuState) (x y : Int) :
    (waveHandleCanvasClick s x y).frameIndex = s.frameIndex := by
  unfold waveHandleCanvasClick
  dsimp only
  split <;> rfl

/-- The reaction-diffusion pointer handler leaves the texture of the
complementary index unchanged. -/
theorem rdHandleCanvasClick_preserves_other (s : GpuState) (x y : Int) :
    texAt (rdHandleCanvasClick s x y) (1 - rdInjectTargetIdx s.frameIndex) =
      texAt s (1 - rdInjectTargetIdx s.frameIndex) := by
  unfold rdHandleCanvasClick rdInjectTargetIdx texAt
  rcases Nat.mod_two_eq_zero_or_one s.frameIndex with h | h <;> simp [h]

/-- The wave pointer handler leaves the texture of the complementary
index unchanged. -/
theorem waveHandleCanvasClick_preserves_other (s : GpuState) (x y : Int) :
    texAt (waveHandleCanvasClick s x y) (1 - waveInjectTargetIdx s.frameIndex) =
      texAt s (1 - waveInjectTargetIdx s.frameIndex) := by
  unfold waveHandleCanvasClick waveInjectTargetIdx texAt
  rcases Nat.mod_two_eq_zero_or_one s.frameIndex with h | h <;> simp [h]

/-- Firing an animation frame never changes whether a request is
outstanding: a fired callback re-requests, an absent request stays
absent. -/
theorem fireTick_pending (m : LoopModel) : (fireTick m).pending = m.pending := by
  unfold fireTick
  split <;> simp_all

/-- Once the outstanding request is cancelled, firing does nothing. -/
theorem fireTick_of_cancelled (m : LoopModel) (h : m.pending = false) : fireTick m = m := by
  unfold fireTick
  rw [if_neg]
  simp [h]

/-- While the simulation runs, a request is always outstanding. -/
theorem fireTick_iterate_pending (N : ℕ) : (fireTick^[N] rdInitLoop).pending = true := by
  induction N with
  | zero => rfl
  | succ k ih => rw [Function.iterate_succ_apply', fireTick_pending]; exact ih

end Helpers

/-- Claim C5: for every interior cell (all four neighbors in bounds),
one reaction-diffusion kernel invocation stores exactly the Euler step
of section 4.1 of the spec: laplacian(X) = sum of the four axis-aligned
neighbors of X minus 4 times the cell value, A1 = clamp(A +
(D_A lap(A) - A B^2 + F (1 - A)) dt, 0, 1), B1 = clamp(B + (D_B lap(B)
+ A B^2 - (F + K) B) dt, 0, 1), with D_A = 0.16, D_B = 0.08, F = 0.055,
K = 0.062 and the time step within [1.0, 1.4]. -/
theorem rd_kernel_interior_matches_spec (tex : Tex) (sx sy cx cy : Int)
    (hx : 0 < cx ∧ cx < sx - 1) (hy : 0 < cy ∧ cy < sy - 1) :
    rdKernel tex sx sy cx cy =
      some (rdSpecStep (tex cx cy).r (tex cx cy).g
        (laplacianSpec (tex cx cy).r (tex (cx - 1) cy).r (tex (cx + 1) cy).r
          (tex cx (cy - 1)).r (tex cx (cy + 1)).r)
        (laplacianSpec (tex cx cy).g (tex (cx - 1) cy).g (tex (cx + 1) cy).g
          (tex cx (cy - 1)).g (tex cx (cy + 1)).g)) ∧
    DU = 16/100 ∧ DV = 8/100 ∧ F = 55/1000 ∧ K = 62/1000 ∧ 1 ≤ DT ∧ DT ≤ 14/10 := by
  obtain ⟨hx0, hx1⟩ := hx
  obtain ⟨hy0, hy1⟩ := hy
  refine ⟨?_, rfl, rfl, rfl, rfl, by norm_num [DT], by norm_num [DT]⟩
  unfold rdKernel
  rw [if_neg (by omega)]
  simp only [rdSpecStep, laplacianSpec, Option.some.injEq, Cell.mk.injEq]
  constructor <;> exact congrArg (fun z => clampQ z 0 1) (by ring)

/-- Witness for C5: the interior cell (1, 1) of a 3 x 3 grid holding
the uniform initial state. -/
theorem rd_kernel_interior_matches_spec_witness :
    rdKernel constTex 3 3 1 1 =
      some (rdSpecStep (constTex 1 1).r (constTex 1 1).g
        (laplacianSpec (constTex 1 1).r (constTex (1 - 1) 1).r (constTex (1 + 1) 1).r
          (constTex 1 (1 - 1)).r (constTex 1 (1 + 1)).r)
        (laplacianSpec (constTex 1 1).g (constTex (1 - 1) 1).g (constTex (1 + 1) 1).g
          (constTex 1 (1 - 1)).g (constTex 1 (1 + 1)).g)) ∧
    DU = 16/100 ∧ DV = 8/100 ∧ F = 55/1000 ∧ K = 62/1000 ∧ 1 ≤ DT ∧ DT ≤ 14/10 :=
  rd_kernel_interior_matches_spec constTex 3 3 1 1 ⟨by norm_num, by norm_num⟩
    ⟨by norm_num, by norm_num⟩

/-- Claim C8: for every interior cell, one wave kernel invocation
stores the new height A1 = damping (2 A - B + lap(A) strength) and the
old height as the new previous-height channel, B1 = A, with
damping = 0.99 and strength = 0.5. -/
theorem wave_kernel_interior_matches_spec (tex : Tex) (sx sy cx cy : Int)
    (hx : 0 < cx ∧ cx < sx - 1) (hy : 0 < cy ∧ cy < sy - 1) :
    waveKernel tex sx sy cx cy =
      some (waveSpecStep (tex cx cy).r (tex cx cy).g
        (laplacianSpec (tex cx cy).r (tex (cx - 1) cy).r (tex (cx + 1) cy).r
          (tex cx (cy - 1)).r (tex cx (cy + 1)).r)) ∧
    DAMPING = 99/100 ∧ STRENGTH = 1/2 := by
  obtain ⟨hx0, hx1⟩ := hx
  obtain ⟨hy0, hy1⟩ := hy
  refine ⟨?_, rfl, rfl⟩
  unfold waveKernel
  rw [if_neg (by omega)]
  simp only [waveSpecStep, laplacianSpec, Option.some.injEq, Cell.mk.injEq]
  exact ⟨by ring, trivial⟩

/-- Witness for C8: the interior cell (1, 1) of a 3 x 3 zero grid. -/
theorem wave_kernel_interior_matches_spec_witness :
    waveKernel zeroTex 3 3 1 1 =
      some (waveSpecStep (zeroTex 1 1).r (zeroTex 1 1).g
        (laplacianSpec (zeroTex 1 1).r (zeroTex (1 - 1) 1).r (zeroTex (1 + 1) 1).r
          (zeroTex 1 (1 - 1)).r (zeroTex 1 (1 + 1)).r)) ∧
    DAMPING = 99/100 ∧ STRENGTH = 1/2 :=
  wave_kernel_interior_matches_spec zeroTex 3 3 1 1 ⟨by norm_num, by norm_num⟩
    ⟨by norm_num, by norm_num⟩

/-- Claim C7: whenever the reaction-diffusion kernel stores a value,
both stored channels lie within [0, 1], for every input texture (every
rational channel value) and every coordinate — the per-step clamp
keeps the written buffer inside the unit range. -/
theorem rd_kernel_output_in_unit_range (tex : Tex) (sx sy cx cy : Int) (c : Cell)
    (h : rdKernel tex sx sy cx cy = some c) :
    0 ≤ c.r ∧ c.r ≤ 1 ∧ 0 ≤ c.g ∧ c.g ≤ 1 := by
  unfold rdKernel at h
  split at h
  · exact absurd h (by simp)
  · simp only [Option.some.injEq] at h
    rw [← h]
    exact ⟨(clampQ_unit _).1, (clampQ_unit _).2, (clampQ_unit _).1, (clampQ_unit _).2⟩

/-- Witness for C7: the kernel at cell (1, 1) of a 3 x 3 grid in the
uniform initial state stores the cell value (1, 0), which lies in the
unit range. -/
theorem rd_kernel_output_in_unit_range_witness :
    0 ≤ (⟨1, 0⟩ : Cell).r ∧ (⟨1, 0⟩ : Cell).r ≤ 1 ∧
    0 ≤ (⟨1, 0⟩ : Cell).g ∧ (⟨1, 0⟩ : Cell).g ≤ 1 :=
  rd_kernel_output_in_unit_range constTex 3 3 1 1 ⟨1, 0⟩
    (by norm_num [rdKernel, constTex, DU, DV, F, K, DT, clampQ, min_def, max_def])

/-- Counterexample refuting claim C2 as stated: the corner cell (0, 0)
of the 700 x 600 reaction-diffusion grid (and of the 700 x 450 wave
grid) is inside the grid, so the bounds guard does not fire and the
kernel does store a value for it — the kernel does not skip cells
whose neighbors fall outside the grid. -/
theorem corner_cell_is_written_cex :
    (rdKernel constTex rdWIDTH rdHEIGHT 0 0).isSome = true ∧
    (waveKernel zeroTex waveWIDTH waveHEIGHT 0 0).isSome = true := by
  constructor
  · norm_num [rdKernel, rdWIDTH, rdHEIGHT]
  · norm_num [waveKernel, waveWIDTH, waveHEIGHT]

/-- Claim C2 as amended: the kernels skip (store nothing for) exactly
the invocations whose own cell coordinate lies outside [0,W) x [0,H).
Cells inside the grid — border cells such as (0, 0) included — are
always computed and stored, with neighbor loads that fall outside the
grid supplying whatever the device returns for an out-of-bounds
textureLoad; border cells are not left unchanged by a skip. -/
theorem kernel_skips_iff_cell_out_of_bounds (tex : Tex) (sx sy cx cy : Int) :
    (rdKernel tex sx sy cx cy = none ↔ (cx ≥ sx ∨ cy ≥ sy ∨ cx < 0 ∨ cy < 0)) ∧
    (waveKernel tex sx sy cx cy = none ↔ (cx ≥ sx ∨ cy ≥ sy ∨ cx < 0 ∨ cy < 0)) := by
  constructor
  · unfold rdKernel
    split <;> simp_all
  · unfold waveKernel
    split <;> simp_all

/-- Claim C10: a compute-kernel invocation whose cell coordinate lies
outside [0,W) x [0,H) returns before performing any write, in both
kernels — so the over-provisioned dispatch of ceil(W/8) x ceil(H/8)
workgroups never stores a value outside the grid. -/
theorem oob_invocation_stores_nothing (tex : Tex) (sx sy cx cy : Int)
    (h : cx ≥ sx ∨ cy ≥ sy ∨ cx < 0 ∨ cy < 0) :
    rdKernel tex sx sy cx cy = none ∧ waveKernel tex sx sy cx cy = none := by
  constructor
  · unfold rdKernel
    rw [if_pos h]
  · unfold waveKernel
    rw [if_pos h]

/-- Witness for C10: thread (701, 0) exists in the reaction-diffusion
dispatch (700 is not a multiple of 8, so the dispatch covers x up to
703) and stores nothing; thread (0, 450) exists in the wave dispatch
(450 is not a multiple of 8) and stores nothing. -/
theorem oob_invocation_stores_nothing_witness :
    ((701 : ℕ) < WORKGROUP_SIZE * workgroupCount 700 ∧
      rdKernel constTex rdWIDTH rdHEIGHT 701 0 = none) ∧
    ((450 : ℕ) < WORKGROUP_SIZE * workgroupCount 450 ∧
      waveKernel zeroTex waveWIDTH waveHEIGHT 0 450 = none) := by
  refine ⟨⟨by decide, ?_⟩, ⟨by decide, ?_⟩⟩
  · exact (oob_invocation_stores_nothing constTex rdWIDTH rdHEIGHT 701 0
      (Or.inl (by norm_num [rdWIDTH]))).1
  · exact (oob_invocation_stores_nothing zeroTex waveWIDTH waveHEIGHT 0 450
      (Or.inr (Or.inl (by norm_num [waveHEIGHT])))).2

/-- Counterexample refuting claim C1 as stated: on the very first tick
(frameIndex = 0) the render pass reads buffer index 0 = 0 mod 2, not
1 - (0 mod 2) — the render bind group is bindGroups[1][currentBufferIndex],
wired to the texture the compute pass reads, not to the one it writes. -/
theorem render_reads_written_buffer_cex :
    (rdDrawFrame rdInitGpu).2.renderReadIdx ≠ 1 - rdInitGpu.frameIndex % 2 := by
  norm_num [rdDrawFrame, rdInitGpu, currentBufferIndex]

/-- Claim C1 as amended: the render pass of tick n is invoked once per
tick but reads buffer index n mod 2 — the same buffer the compute pass
of that tick reads, which holds the state produced by the previous
tick — and never the buffer index 1 - (n mod 2) that this tick writes;
the roles flip (frameIndex increments) only after the render. So the
displayed frame shows the state produced by the previous tick, one tick
behind the just-computed state. -/
theorem render_reads_compute_input (n : ℕ) :
    (rdDrawFrame (rdSimAt n)).2.renderReadIdx = n % 2 ∧
    (rdDrawFrame (rdSimAt n)).2.renderReadIdx = (rdDrawFrame (rdSimAt n)).2.computeReadIdx ∧
    (rdDrawFrame (rdSimAt n)).2.computeWriteIdx = 1 - n % 2 ∧
    (rdDrawFrame (rdSimAt n)).2.renderReadIdx ≠ (rdDrawFrame (rdSimAt n)).2.computeWriteIdx := by
  rw [rdDrawFrame_log]
  unfold currentBufferIndex
  rw [rdSimAt_frameIndex]
  refine ⟨rfl, rfl, rfl, ?_⟩
  dsimp only
  omega

/-- Claim C6: the tick counter starts at 0, each completed drawFrame
increments it by exactly 1 (so after n ticks it reads n and is never
decremented or reset), the current (read) buffer index equals n mod 2,
and that index alternates strictly between consecutive ticks. -/
theorem tick_counter_invariants (n : ℕ) :
    rdInitGpu.frameIndex = 0 ∧
    (rdSimAt n).frameIndex = n ∧
    (rdStep (rdSimAt n)).frameIndex = (rdSimAt n).frameIndex + 1 ∧
    currentBufferIndex (rdSimAt n) = n % 2 ∧
    currentBufferIndex (rdSimAt (n + 1)) ≠ currentBufferIndex (rdSimAt n) := by
  refine ⟨rfl, rdSimAt_frameIndex n, rdStep_frameIndex _, ?_, ?_⟩
  · unfold currentBufferIndex
    rw [rdSimAt_frameIndex]
  · unfold currentBufferIndex
    rw [rdSimAt_frameIndex, rdSimAt_frameIndex]
    omega

/-- Claim C9: after any N completed ticks a request for the next frame
is still outstanding (the loop re-requests at the end of each completed
step), and once the cleanup cancels that request, no further firing of
the host scheduler ever mutates the GPU state again: there is no
(N+1)-th step after cancellation. -/
theorem cancellation_stops_steps (N k : ℕ) :
    (fireTick^[N] rdInitLoop).pending = true ∧
    (cancelLoop (fireTick^[N] rdInitLoop)).pending = false ∧
    (fireTick^[k] (cancelLoop (fireTick^[N] rdInitLoop))).gpu = (fireTick^[N] rdInitLoop).gpu := by
  refine ⟨fireTick_iterate_pending N, rfl, ?_⟩
  have hstay : ∀ j, fireTick^[j] (cancelLoop (fireTick^[N] rdInitLoop)) =
      cancelLoop (fireTick^[N] rdInitLoop) := by
    intro j
    induction j with
    | zero => rfl
    | succ i ih => rw [Function.iterate_succ_apply', ih, fireTick_of_cancelled _ rfl]
  rw [hstay k]
  rfl

/-- Counterexample refuting claim C3 as stated: a click at the grid
corner (0, 0) should, per the claim, leave the clipped part of the
5 x 5 patch — which contains (0, 0) itself — holding the injected
values (A = 0.5, B = 1.0); instead the destination region of the
underlying writeTexture crosses the texture boundary (origin (-2, -2)),
the copy is rejected as a whole, and cell (0, 0) keeps its previous
value (1, 0): the patch is not clamped to the grid. -/
theorem inject_corner_not_clipped_cex :
    (rdHandleCanvasClick rdInitGpu 0 0).tex0 0 0 = ⟨1, 0⟩ ∧
    ((1 : ℚ), (0 : ℚ)) ≠ ((1/2 : ℚ), (1 : ℚ)) ∧
    currentBufferIndex rdInitGpu = 0 := by
  refine ⟨?_, by norm_num, rfl⟩
  norm_num [rdHandleCanvasClick, rdInjectTargetIdx, rdInitGpu, writeTexturePatch,
    rdWIDTH, rdHEIGHT, constTex]

/-- Claim C3 as amended: when the whole 5 x 5 patch centered at (x, y)
lies inside [0,W) x [0,H) (that is, 2 ≤ x ≤ W-3 and 2 ≤ y ≤ H-3), the
injection writes the constant values A = 0.5, B = 1.0 to every cell of
that patch in buffer index frameIndex mod 2 — the buffer the next step
reads as current — and the next step leaves that buffer untouched (its
stencil pass writes only the complementary buffer), so the patch values
are still exactly present there after the step. Near the border no
clipping happens: the whole write is rejected instead (see the
counterexample). -/
theorem rd_inject_interior_roundtrip (s : GpuState) (x y i j : Int)
    (hx : 2 ≤ x ∧ x + 3 ≤ rdWIDTH) (hy : 2 ≤ y ∧ y + 3 ≤ rdHEIGHT)
    (hi : x - 2 ≤ i ∧ i ≤ x + 2) (hj : y - 2 ≤ j ∧ j ≤ y + 2) :
    texAt (rdHandleCanvasClick s x y) (currentBufferIndex s) i j = ⟨1/2, 1⟩ ∧
    texAt (rdStep (rdHandleCanvasClick s x y)) (currentBufferIndex s) i j = ⟨1/2, 1⟩ := by
  have hpatch : texAt (rdHandleCanvasClick s x y) (currentBufferIndex s) i j = ⟨1/2, 1⟩ := by
    unfold rdHandleCanvasClick rdInjectTargetIdx currentBufferIndex texAt
    rcases Nat.mod_two_eq_zero_or_one s.frameIndex with h | h <;>
    · simp only [h]
      norm_num
      unfold writeTexturePatch
      rw [if_pos (by omega)]
      rw [if_pos (by omega)]
  refine ⟨hpatch, ?_⟩
  have hfi : currentBufferIndex (rdHandleCanvasClick s x y) = currentBufferIndex s := by
    unfold currentBufferIndex
    rw [rdHandleCanvasClick_frameIndex]
  have h2 := rdStep_preserves_read_texture (rdHandleCanvasClick s x y)
  rw [hfi] at h2
  rw [h2]
  exact hpatch

/-- Witness for C3: a click at (10, 10) on the freshly initialized
reaction-diffusion simulator, checked at cell (10, 10). -/
theorem rd_inject_interior_roundtrip_witness :
    texAt (rdHandleCanvasClick rdInitGpu 10 10) (currentBufferIndex rdInitGpu) 10 10 = ⟨1/2, 1⟩ ∧
    texAt (rdStep (rdHandleCanvasClick rdInitGpu 10 10)) (currentBufferIndex rdInitGpu) 10 10
      = ⟨1/2, 1⟩ :=
  rd_inject_interior_roundtrip rdInitGpu 10 10 10 10 (by decide) (by decide)
    (by decide) (by decide)

/-- Counterexample refuting claim C4 as stated: at tick 0 both live
injectors target the same buffer index 0 = 0 mod 2, not complementary
indices — the reaction-diffusion click and the wave click both leave
texture 1 untouched and both write texture 0 — so the two
implementations do not use different buffer-targeting conventions. -/
theorem inject_conventions_differ_cex :
    rdInjectTargetIdx 0 = waveInjectTargetIdx 0 ∧
    rdInjectTargetIdx 0 ≠ 1 - 0 % 2 ∧
    waveInjectTargetIdx 0 ≠ 1 - 0 % 2 ∧
    (rdHandleCanvasClick rdInitGpu 10 10).tex1 = rdInitGpu.tex1 ∧
    (waveHandleCanvasClick waveInitGpu 10 10).tex1 = waveInitGpu.tex1 ∧
    (rdHandleCanvasClick rdInitGpu 10 10).tex0 10 10 ≠ rdInitGpu.tex0 10 10 ∧
    (waveHandleCanvasClick waveInitGpu 10 10).tex0 10 10 ≠ waveInitGpu.tex0 10 10 := by
  refine ⟨rfl, by decide, by decide, rfl, rfl, ?_, ?_⟩
  · norm_num [rdHandleCanvasClick, rdInjectTargetIdx, rdInitGpu, writeTexturePatch,
      rdWIDTH, rdHEIGHT, constTex]
  · norm_num [waveHandleCanvasClick, waveInjectTargetIdx, waveInitGpu, writeTexturePatch,
      waveWIDTH, waveHEIGHT, zeroTex]

/-- Claim C4 as amended: the two live simulators use the same injection
buffer-targeting convention: both pointer handlers target buffer index
frameIndex mod 2 (the buffer the next step reads as current), neither
touches the frame counter, and each leaves the complementary buffer
index 1 - (frameIndex mod 2) unchanged — so an injected patch becomes
visible at the same relative tick in both simulators. -/
theorem inject_conventions_agree (n : ℕ) (s : GpuState) (x y : Int) :
    rdInjectTargetIdx n = n % 2 ∧
    waveInjectTargetIdx n = n % 2 ∧
    rdInjectTargetIdx n = waveInjectTargetIdx n ∧
    (rdHandleCanvasClick s x y).frameIndex = s.frameIndex ∧
    (waveHandleCanvasClick s x y).frameIndex = s.frameIndex ∧
    texAt (rdHandleCanvasClick s x y) (1 - rdInjectTargetIdx s.frameIndex) =
      texAt s (1 - rdInjectTargetIdx s.frameIndex) ∧
    texAt (waveHandleCanvasClick s x y) (1 - waveInjectTargetIdx s.frameIndex) =
      texAt s (1 - waveInjectTargetIdx s.frameIndex) :=
  ⟨rfl, rfl, rfl, rdHandleCanvasClick_frameIndex s x y, waveHandleCanvasClick_frameIndex s x y,
    rdHandleCanvasClick_preserves_other s x y, waveHandleCanvasClick_preserves_other s x y⟩

end ShaderArt
